import Mathlib

/-!
Verification of the query-translation core of the MongoDB NDC connector.

Definitions are shallow embeddings of the Rust source under `src/crates/`.
Code that lives outside the provided sources (the `mongodb_support` and
`ndc_query_plan` crates, serde derives, the BSON codec) is either modelled
from the specification (marked `Modelled from the spec:`) or abstracted as a
function parameter.
-/

/-! ## Scalar types and capabilities

Embedding of `mongodb-agent-common/src/scalar_types_capabilities.rs` together
with the scalar kind enumeration from the `mongodb_support` crate.
-/

/-- The closed set of MongoDB BSON scalar kinds
(`mongodb_support::BsonScalarType`, enumerated in the spec §3). -/
inductive BsonScalarType where
  | double
  | decimal
  | int
  | long
  | string
  | date
  | timestamp
  | binData
  | objectId
  | bool
  | null
  | regex
  | javascript
  | javascriptWithScope
  | minKey
  | maxKey
  | undefined
  | dbPointer
  | symbol
  deriving DecidableEq, Repr

/-- Modelled from the spec: `orderable: Double, Decimal, Int, Long, String,
Date, Timestamp, ObjectId` (§4.1 capability table; the implementation lives in
the `mongodb_support` crate, which is not among the provided sources). -/
def BsonScalarType.is_orderable : BsonScalarType → Bool
  | .double | .decimal | .int | .long | .string | .date | .timestamp | .objectId => true
  | _ => false

/-- Modelled from the spec: `numeric: Double, Decimal, Int, Long` (§4.1). -/
def BsonScalarType.is_numeric : BsonScalarType → Bool
  | .double | .decimal | .int | .long => true
  | _ => false

/-- Modelled from the spec: `comparable: orderable ∪ \x7bBool, BinData,
ObjectId, Null\x7d` (§4.1). -/
def BsonScalarType.is_comparable : BsonScalarType → Bool
  | .bool | .binData | .objectId | .null => true
  | s => s.is_orderable

/-- `configuration::MongoScalarType`: either the distinguished ExtendedJSON
scalar or a BSON scalar kind. -/
inductive MongoScalarType where
  | extendedJSON
  | bson (s : BsonScalarType)
  deriving DecidableEq, Repr

/-- Aggregation operators (`mongodb-agent-common/src/aggregation_function.rs`,
names as used by `scalar_types_capabilities.rs`). -/
inductive AggregationFunction where
  | count
  | min
  | max
  | avg
  | sum
  deriving DecidableEq, Repr

/-- `mongodb-agent-common/src/comparison_function.rs`: supported binary
comparison operators. -/
inductive ComparisonFunction where
  | lessThan
  | lessThanOrEqual
  | greaterThan
  | greaterThanOrEqual
  | equal
  | notEqual
  | regex
  | iregex
  deriving DecidableEq, Repr

/-- `aggregate_functions` from `scalar_types_capabilities.rs` lines 110-127:
count paired with Int always, min/max when orderable, avg/sum when numeric. -/
def aggregate_functions (scalar_type : BsonScalarType) :
    List (AggregationFunction × BsonScalarType) :=
  [(AggregationFunction.count, BsonScalarType.int)]
    ++ (if scalar_type.is_orderable then
          [(AggregationFunction.min, scalar_type), (AggregationFunction.max, scalar_type)]
        else [])
    ++ (if scalar_type.is_numeric then
          [(AggregationFunction.avg, scalar_type), (AggregationFunction.sum, scalar_type)]
        else [])

/-- `comparison_operators` from `scalar_types_capabilities.rs` lines 129-151:
eq/neq when comparable, the four order operators when orderable, regex/iregex
exactly for String. -/
def comparison_operators (scalar_type : BsonScalarType) :
    List (ComparisonFunction × BsonScalarType) :=
  (if scalar_type.is_comparable then
     [(ComparisonFunction.equal, scalar_type), (ComparisonFunction.notEqual, scalar_type)]
   else [])
    ++ (if scalar_type.is_orderable then
          [(ComparisonFunction.lessThan, scalar_type),
           (ComparisonFunction.lessThanOrEqual, scalar_type),
           (ComparisonFunction.greaterThan, scalar_type),
           (ComparisonFunction.greaterThanOrEqual, scalar_type)]
        else [])
    ++ (match scalar_type with
        | .string => [(ComparisonFunction.regex, BsonScalarType.string),
                      (ComparisonFunction.iregex, BsonScalarType.string)]
        | _ => [])

/-- `ndc_models::TypeRepresentation` tags used by the catalog. -/
inductive TypeRepresentation where
  | float64
  | bigDecimal
  | int32
  | int64
  | stringRep
  | timestamp
  | booleanRep
  | json
  deriving DecidableEq, Repr

/-- A catalog scalar type entry (`ndc_models::ScalarType` as populated by
`scalar_types_capabilities.rs`): representation tag plus the published
aggregate functions and comparison operators. -/
structure ScalarType where
  representation : Option TypeRepresentation
  aggregate_functions : List (AggregationFunction × BsonScalarType)
  comparison_operators : List (ComparisonFunction × BsonScalarType)
  deriving DecidableEq, Repr

/-- `bson_scalar_type_representation` from `scalar_types_capabilities.rs`
lines 48-70. -/
def bson_scalar_type_representation : BsonScalarType → Option TypeRepresentation
  | .double => some .float64
  | .decimal => some .bigDecimal
  | .int => some .int32
  | .long => some .int64
  | .string => some .stringRep
  | .date => some .timestamp
  | .timestamp => none
  | .binData => none
  | .objectId => some .stringRep
  | .bool => some .booleanRep
  | .null => none
  | .regex => none
  | .javascript => none
  | .javascriptWithScope => none
  | .minKey => none
  | .maxKey => none
  | .undefined => none
  | .dbPointer => none
  | .symbol => none

/-- `extended_json_scalar_type` from `scalar_types_capabilities.rs` lines
27-36: the ExtendedJSON catalog entry has a JSON representation and publishes
no aggregate functions and no comparison operators. -/
def extended_json_scalar_type : ScalarType :=
  { representation := some .json
    aggregate_functions := []
    comparison_operators := [] }

/-- `make_scalar_type` from `scalar_types_capabilities.rs` lines 38-46. -/
def make_scalar_type (bson_scalar_type : BsonScalarType) : ScalarType :=
  { representation := bson_scalar_type_representation bson_scalar_type
    aggregate_functions := aggregate_functions bson_scalar_type
    comparison_operators := comparison_operators bson_scalar_type }

/-- `scalar_types` from `scalar_types_capabilities.rs` lines 20-25: catalog
entries for every BSON scalar kind plus the ExtendedJSON entry. -/
def scalar_types : MongoScalarType → ScalarType
  | .extendedJSON => extended_json_scalar_type
  | .bson s => make_scalar_type s

/-! ## BSON values and comparison-operator lowering

A small model of `mongodb::bson::Bson` values sufficient for the documents
built by the sources, and the embedding of
`mongodb-agent-common/src/comparison_function.rs`.
-/

/-- Model of `mongodb::bson::Bson` values (documents are ordered field
lists, as produced by the `doc!` macro in the sources). -/
inductive Bson where
  | null
  | bool (b : Bool)
  | int (n : Int)
  | double (q : ℚ)
  | str (s : String)
  | arr (elems : List Bson)
  | doc (fields : List (String × Bson))

/-- A BSON document: an ordered list of named fields. -/
def BsonDocument : Type := List (String × Bson)

/-- `ComparisonFunction::mongodb_name` (comparison_function.rs lines 41-52). -/
def ComparisonFunction.mongodb_name : ComparisonFunction → String
  | .lessThan => "$lt"
  | .lessThanOrEqual => "$lte"
  | .greaterThan => "$gt"
  | .greaterThanOrEqual => "$gte"
  | .equal => "$eq"
  | .notEqual => "$ne"
  | .regex => "$regex"
  | .iregex => "$regex"

/-- `ComparisonFunction::graphql_name` (comparison_function.rs lines 28-39). -/
def ComparisonFunction.graphql_name : ComparisonFunction → String
  | .lessThan => "_lt"
  | .lessThanOrEqual => "_lte"
  | .greaterThan => "_gt"
  | .greaterThanOrEqual => "_gte"
  | .equal => "_eq"
  | .notEqual => "_neq"
  | .regex => "_regex"
  | .iregex => "_iregex"

/-- `ComparisonFunction::mongodb_match_query` (comparison_function.rs lines
62-74): the match-query lowering of one comparison. -/
def ComparisonFunction.mongodb_match_query (c : ComparisonFunction)
    (column_ref : String) (comparison_value : Bson) : BsonDocument :=
  match c with
  | .iregex =>
      [(column_ref, Bson.doc [(c.mongodb_name, comparison_value), ("$options", Bson.str "i")])]
  | _ => [(column_ref, Bson.doc [(c.mongodb_name, comparison_value)])]

/-- `ComparisonFunction::mongodb_aggregation_expression`
(comparison_function.rs lines 76-92): the aggregation-expression lowering. -/
def ComparisonFunction.mongodb_aggregation_expression (c : ComparisonFunction)
    (column_ref comparison_value : Bson) : BsonDocument :=
  match c with
  | .regex =>
      [("$regexMatch", Bson.doc [("input", column_ref), ("regex", comparison_value)])]
  | .iregex =>
      [("$regexMatch", Bson.doc
        [("input", column_ref), ("regex", comparison_value), ("options", Bson.str "i")])]
  | _ => [(c.mongodb_name, Bson.arr [column_ref, comparison_value])]

/-! ## Argument resolution

Embedding of `mongodb-agent-common/src/query/arguments.rs`. The JSON→BSON
codec (`json_to_bson`) and the variable-name mangling
(`query_variable_name`) live in modules outside the provided sources and are
taken as function parameters. `BTreeMap`s are modelled as association lists
in key order.
-/

/-- `ndc_models::Argument`: a supplied argument is either a variable
reference or a JSON literal. -/
inductive Argument (J : Type) where
  | var (name : String)
  | literal (value : J)

/-- `ArgumentError` from arguments.rs lines 16-26. -/
inductive ArgumentError (E : Type) where
  | excess (names : List String)
  | invalid (errors : List (String × E))
  | missing (names : List String)

/-- `argument_to_mongodb_expression` from arguments.rs lines 74-85: variables
become `$$<mangled name>` strings, literals go through the JSON→BSON codec. -/
def argument_to_mongodb_expression {T J E : Type}
    (json_to_bson : T → J → Except E Bson) (query_variable_name : String → T → String)
    (argument : Argument J) (parameter_type : T) : Except E Bson :=
  match argument with
  | .var name => .ok (Bson.str ("$$" ++ query_variable_name name parameter_type))
  | .literal value => json_to_bson parameter_type value

/-- `validate_no_excess_arguments` from arguments.rs lines 87-106. -/
def validate_no_excess_arguments {T A E : Type}
    (parameters : List (String × T)) (arguments : List (String × A)) :
    Except (ArgumentError E) Unit :=
  let excess := (arguments.filter fun a => (parameters.lookup a.1).isNone).map Prod.fst
  if excess.isEmpty then .ok () else .error (.excess excess)

/-- `resolve_arguments` from arguments.rs lines 32-72: reject excess
arguments, then missing parameters, then invalid literals, otherwise return a
BSON binding per parameter (in parameter order, as the `BTreeMap` iterates). -/
def resolve_arguments {T J E : Type}
    (json_to_bson : T → J → Except E Bson) (query_variable_name : String → T → String)
    (parameters : List (String × T)) (arguments : List (String × Argument J)) :
    Except (ArgumentError E) (List (String × Bson)) :=
  match validate_no_excess_arguments parameters arguments with
  | .error e => .error e
  | .ok () =>
    let found : List (String × Argument J × T) :=
      parameters.filterMap fun p =>
        match arguments.lookup p.1 with
        | some argument => some (p.1, argument, p.2)
        | none => none
    let missing : List String :=
      (parameters.filter fun p => (arguments.lookup p.1).isNone).map Prod.fst
    if missing.isEmpty then
      let results : List (String × Except E Bson) :=
        found.map fun x =>
          (x.1, argument_to_mongodb_expression json_to_bson query_variable_name x.2.1 x.2.2)
      let errors : List (String × E) :=
        results.filterMap fun r =>
          match r.2 with
          | .error e => some (r.1, e)
          | .ok _ => none
      if errors.isEmpty then
        .ok (results.filterMap fun r =>
          match r.2 with
          | .ok b => some (r.1, b)
          | .error _ => none)
      else .error (.invalid errors)
    else .error (.missing missing)

/-- The supplied argument names that are not among the declared parameters,
in supplied order (the spec's `Excess` condition). -/
def spec_excess_names {T A : Type}
    (parameters : List (String × T)) (arguments : List (String × A)) : List String :=
  (arguments.filter fun a => (parameters.lookup a.1).isNone).map Prod.fst

/-- The declared parameter names with no supplied argument, in declaration
order (the spec's `Missing` condition). -/
def spec_missing_names {T A : Type}
    (parameters : List (String × T)) (arguments : List (String × A)) : List String :=
  (parameters.filter fun p => (arguments.lookup p.1).isNone).map Prod.fst

/-- The map from each failing argument name to its JSON-to-BSON codec error
(the spec's `Invalid` payload). -/
def spec_invalid_errors {T J E : Type}
    (json_to_bson : T → J → Except E Bson) (query_variable_name : String → T → String)
    (parameters : List (String × T)) (arguments : List (String × Argument J)) :
    List (String × E) :=
  parameters.filterMap fun p =>
    match arguments.lookup p.1 with
    | some argument =>
      match argument_to_mongodb_expression json_to_bson query_variable_name argument p.2 with
      | .error e => some (p.1, e)
      | .ok _ => none
    | none => none

theorem resolve_found_map_fst {T A : Type} (arguments : List (String × A)) :
    ∀ parameters : List (String × T),
      spec_missing_names parameters arguments = [] →
      ((parameters.filterMap fun p =>
          match arguments.lookup p.1 with
          | some a => some (p.1, a, p.2)
          | none => none).map fun x => x.1) = parameters.map Prod.fst := by
  intro parameters
  induction parameters with
  | nil => intro _; rfl
  | cons p rest ih =>
    intro h
    cases hl : arguments.lookup p.1 with
    | none =>
      exfalso
      simp [spec_missing_names, List.filter_cons, hl] at h
    | some a =>
      have h' : spec_missing_names rest arguments = [] := by
        simpa [spec_missing_names, List.filter_cons, hl] using h
      simp [List.filterMap_cons, hl, ih h']

theorem resolve_errors_eq {T J E : Type} (json_to_bson : T → J → Except E Bson)
    (query_variable_name : String → T → String) (arguments : List (String × Argument J)) :
    ∀ parameters : List (String × T),
      (((parameters.filterMap fun p =>
          match arguments.lookup p.1 with
          | some a => some (p.1, a, p.2)
          | none => none).map fun x =>
            (x.1, argument_to_mongodb_expression json_to_bson query_variable_name x.2.1 x.2.2)).filterMap
        fun r =>
          match r.2 with
          | .error e => some (r.1, e)
          | .ok _ => none)
      = spec_invalid_errors json_to_bson query_variable_name parameters arguments := by
  intro parameters
  induction parameters with
  | nil => rfl
  | cons p rest ih =>
    simp only [spec_invalid_errors, List.filterMap_cons]
    cases hl : arguments.lookup p.1 with
    | none =>
      simpa [spec_invalid_errors, List.filterMap_cons, hl] using ih
    | some a =>
      cases hc : argument_to_mongodb_expression json_to_bson query_variable_name a p.2 with
      | error e =>
        simpa [spec_invalid_errors, List.filterMap_cons, List.map_cons, hl, hc] using ih
      | ok b =>
        simpa [spec_invalid_errors, List.filterMap_cons, List.map_cons, hl, hc] using ih

theorem resolve_resolved_map_fst {T J E : Type} (json_to_bson : T → J → Except E Bson)
    (query_variable_name : String → T → String) (arguments : List (String × Argument J)) :
    ∀ parameters : List (String × T),
      spec_missing_names parameters arguments = [] →
      spec_invalid_errors json_to_bson query_variable_name parameters arguments = [] →
      ((((parameters.filterMap fun p =>
          match arguments.lookup p.1 with
          | some a => some (p.1, a, p.2)
          | none => none).map fun x =>
            (x.1, argument_to_mongodb_expression json_to_bson query_variable_name x.2.1 x.2.2)).filterMap
        fun r =>
          match r.2 with
          | .ok b => some (r.1, b)
          | .error _ => none).map fun r => r.1)
      = parameters.map Prod.fst := by
  intro parameters
  induction parameters with
  | nil => intro _ _; rfl
  | cons p rest ih =>
    intro hmiss hinv
    cases hl : arguments.lookup p.1 with
    | none =>
      exfalso
      simp [spec_missing_names, List.filter_cons, hl] at hmiss
    | some a =>
      have hmiss' : spec_missing_names rest arguments = [] := by
        simpa [spec_missing_names, List.filter_cons, hl] using hmiss
      cases hc : argument_to_mongodb_expression json_to_bson query_variable_name a p.2 with
      | error e =>
        exfalso
        simp [spec_invalid_errors, List.filterMap_cons, hl, hc] at hinv
      | ok b =>
        have hinv' : spec_invalid_errors json_to_bson query_variable_name rest arguments = [] := by
          simpa [spec_invalid_errors, List.filterMap_cons, hl, hc] using hinv
        simpa [List.filterMap_cons, hl, hc] using ih hmiss' hinv'

theorem resolve_arguments_run_excess {T J E : Type} (json_to_bson : T → J → Except E Bson)
    (query_variable_name : String → T → String)
    (parameters : List (String × T)) (arguments : List (String × Argument J))
    (h : (spec_excess_names parameters arguments).isEmpty = false) :
    resolve_arguments json_to_bson query_variable_name parameters arguments
      = .error (.excess (spec_excess_names parameters arguments)) := by
  have h' := h
  unfold spec_excess_names at h'
  unfold resolve_arguments validate_no_excess_arguments
  simp [spec_excess_names, h']

theorem resolve_arguments_run_missing {T J E : Type} (json_to_bson : T → J → Except E Bson)
    (query_variable_name : String → T → String)
    (parameters : List (String × T)) (arguments : List (String × Argument J))
    (hx : (spec_excess_names parameters arguments).isEmpty = true)
    (hm : (spec_missing_names parameters arguments).isEmpty = false) :
    resolve_arguments json_to_bson query_variable_name parameters arguments
      = .error (.missing (spec_missing_names parameters arguments)) := by
  have hx' := hx
  unfold spec_excess_names at hx'
  have hm' := hm
  unfold spec_missing_names at hm'
  unfold resolve_arguments validate_no_excess_arguments
  simp [spec_missing_names, hx', hm']

theorem resolve_arguments_run_invalid {T J E : Type} (json_to_bson : T → J → Except E Bson)
    (query_variable_name : String → T → String)
    (parameters : List (String × T)) (arguments : List (String × Argument J))
    (hx : (spec_excess_names parameters arguments).isEmpty = true)
    (hm : (spec_missing_names parameters arguments).isEmpty = true)
    (he : (spec_invalid_errors json_to_bson query_variable_name parameters arguments).isEmpty
      = false) :
    resolve_arguments json_to_bson query_variable_name parameters arguments
      = .error (.invalid
          (spec_invalid_errors json_to_bson query_variable_name parameters arguments)) := by
  have hx' := hx
  unfold spec_excess_names at hx'
  have hm' := hm
  unfold spec_missing_names at hm'
  unfold resolve_arguments validate_no_excess_arguments
  simp only [resolve_errors_eq json_to_bson query_variable_name arguments parameters]
  simp [hx', hm', he]

theorem resolve_arguments_run_ok {T J E : Type} (json_to_bson : T → J → Except E Bson)
    (query_variable_name : String → T → String)
    (parameters : List (String × T)) (arguments : List (String × Argument J))
    (hx : (spec_excess_names parameters arguments).isEmpty = true)
    (hm : (spec_missing_names parameters arguments).isEmpty = true)
    (he : (spec_invalid_errors json_to_bson query_variable_name parameters arguments).isEmpty
      = true) :
    ∃ resolved,
      resolve_arguments json_to_bson query_variable_name parameters arguments = .ok resolved ∧
      resolved.map Prod.fst = parameters.map Prod.fst := by
  have hx' := hx
  unfold spec_excess_names at hx'
  have hm' := hm
  unfold spec_missing_names at hm'
  refine ⟨(((parameters.filterMap fun p =>
      match arguments.lookup p.1 with
      | some a => some (p.1, a, p.2)
      | none => none).map fun x =>
        (x.1, argument_to_mongodb_expression json_to_bson query_variable_name x.2.1
          x.2.2)).filterMap fun r =>
          match r.2 with
          | .ok b => some (r.1, b)
          | .error _ => none), ?_, ?_⟩
  · unfold resolve_arguments validate_no_excess_arguments
    simp only [resolve_errors_eq json_to_bson query_variable_name arguments parameters]
    simp [hx', hm', he, -List.filterMap_map]
  · exact resolve_resolved_map_fst json_to_bson query_variable_name arguments parameters
      (by simpa using hm) (by simpa using he)

/-- C9: `resolve_arguments` fails with `Excess` listing exactly the supplied
argument names not among the declared parameters; otherwise with `Missing`
listing exactly the declared parameters with no supplied argument; otherwise
with `Invalid` carrying the map from each failing argument name to its
JSON-to-BSON codec error; and succeeds with a BSON binding for every
parameter exactly when none of these conditions holds. -/
theorem C9_resolve_arguments_partition {T J E : Type}
    (json_to_bson : T → J → Except E Bson) (query_variable_name : String → T → String)
    (parameters : List (String × T)) (arguments : List (String × Argument J)) :
    match resolve_arguments json_to_bson query_variable_name parameters arguments with
    | .error (.excess names) =>
        names = spec_excess_names parameters arguments ∧ names ≠ []
    | .error (.missing names) =>
        spec_excess_names parameters arguments = [] ∧
        names = spec_missing_names parameters arguments ∧ names ≠ []
    | .error (.invalid errs) =>
        spec_excess_names parameters arguments = [] ∧
        spec_missing_names parameters arguments = [] ∧
        errs = spec_invalid_errors json_to_bson query_variable_name parameters arguments ∧
        errs ≠ []
    | .ok resolved =>
        spec_excess_names parameters arguments = [] ∧
        spec_missing_names parameters arguments = [] ∧
        spec_invalid_errors json_to_bson query_variable_name parameters arguments = [] ∧
        resolved.map Prod.fst = parameters.map Prod.fst := by
  by_cases hx : (spec_excess_names parameters arguments).isEmpty = true
  · by_cases hm : (spec_missing_names parameters arguments).isEmpty = true
    · by_cases he :
        (spec_invalid_errors json_to_bson query_variable_name parameters arguments).isEmpty = true
      · obtain ⟨resolved, hr, hfst⟩ := resolve_arguments_run_ok json_to_bson
          query_variable_name parameters arguments hx hm he
        rw [hr]
        exact ⟨by simpa using hx, by simpa using hm, by simpa using he, hfst⟩
      · rw [resolve_arguments_run_invalid json_to_bson query_variable_name parameters arguments
          hx hm (by simpa using he)]
        refine ⟨by simpa using hx, by simpa using hm, rfl, ?_⟩
        have : (spec_invalid_errors json_to_bson query_variable_name parameters
            arguments).isEmpty = false := by simpa using he
        simp at this
        exact this
    · rw [resolve_arguments_run_missing json_to_bson query_variable_name parameters arguments
        hx (by simpa using hm)]
      refine ⟨by simpa using hx, rfl, ?_⟩
      have : (spec_missing_names parameters arguments).isEmpty = false := by simpa using hm
      simp at this
      exact this
  · rw [resolve_arguments_run_excess json_to_bson query_variable_name parameters arguments
      (by simpa using hx)]
    refine ⟨rfl, ?_⟩
    have : (spec_excess_names parameters arguments).isEmpty = false := by simpa using hx
    simp at this
    exact this

/-- C6 counterexample: the claim extends count-availability to the
distinguished ExtendedJSON scalar, but the catalog entry built by
`extended_json_scalar_type` publishes no aggregate functions at all, so
`count` is not available on ExtendedJSON. -/
theorem C6_counterexample_extended_json_has_no_count :
    ¬ AggregationFunction.count
        ∈ ((scalar_types MongoScalarType.extendedJSON).aggregate_functions).map Prod.fst := by
  decide

/-- C6 (amended): for every BSON scalar kind published in the catalog,
`count` is always available, `min`/`max` are available exactly when the
scalar is orderable, and `avg`/`sum` exactly when it is numeric; the
distinguished ExtendedJSON scalar publishes no aggregate functions. -/
theorem C6_aggregate_functions_availability (s : BsonScalarType) :
    AggregationFunction.count
        ∈ ((scalar_types (MongoScalarType.bson s)).aggregate_functions).map Prod.fst
    ∧ (AggregationFunction.min
          ∈ ((scalar_types (MongoScalarType.bson s)).aggregate_functions).map Prod.fst
        ↔ s.is_orderable = true)
    ∧ (AggregationFunction.max
          ∈ ((scalar_types (MongoScalarType.bson s)).aggregate_functions).map Prod.fst
        ↔ s.is_orderable = true)
    ∧ (AggregationFunction.avg
          ∈ ((scalar_types (MongoScalarType.bson s)).aggregate_functions).map Prod.fst
        ↔ s.is_numeric = true)
    ∧ (AggregationFunction.sum
          ∈ ((scalar_types (MongoScalarType.bson s)).aggregate_functions).map Prod.fst
        ↔ s.is_numeric = true)
    ∧ (scalar_types MongoScalarType.extendedJSON).aggregate_functions = [] := by
  cases s <;> decide

/-- C7: for every BSON scalar type, the published comparison operators are
exactly: eq and neq when the scalar is comparable, lt/lte/gt/gte additionally
when it is orderable, and regex/iregex exactly when the scalar is String. -/
theorem C7_comparison_operators_exactly (s : BsonScalarType) (c : ComparisonFunction) :
    c ∈ ((scalar_types (MongoScalarType.bson s)).comparison_operators).map Prod.fst
      ↔ (((c = ComparisonFunction.equal ∨ c = ComparisonFunction.notEqual)
            ∧ s.is_comparable = true)
        ∨ ((c = ComparisonFunction.lessThan ∨ c = ComparisonFunction.lessThanOrEqual
              ∨ c = ComparisonFunction.greaterThan ∨ c = ComparisonFunction.greaterThanOrEqual)
            ∧ s.is_orderable = true)
        ∨ ((c = ComparisonFunction.regex ∨ c = ComparisonFunction.iregex)
            ∧ s = BsonScalarType.string)) := by
  cases s <;> cases c <;> decide

/-- C8: the match-query lowering produces one field
`column: (mapped-operator, value)` with the mapped MongoDB names (eq→$eq,
neq→$ne, lt→$lt, lte→$lte, gt→$gt, gte→$gte, regex→$regex), except iregex
which adds `$options: "i"`; the aggregation-expression lowering produces
`(mapped-operator, [column, value])`, except regex/iregex which produce
`$regexMatch` documents (with `options: "i"` for iregex). -/
theorem C8_comparison_lowering (column : String) (v col : Bson) :
    ComparisonFunction.equal.mongodb_name = "$eq"
    ∧ ComparisonFunction.notEqual.mongodb_name = "$ne"
    ∧ ComparisonFunction.lessThan.mongodb_name = "$lt"
    ∧ ComparisonFunction.lessThanOrEqual.mongodb_name = "$lte"
    ∧ ComparisonFunction.greaterThan.mongodb_name = "$gt"
    ∧ ComparisonFunction.greaterThanOrEqual.mongodb_name = "$gte"
    ∧ ComparisonFunction.regex.mongodb_name = "$regex"
    ∧ (ComparisonFunction.equal.mongodb_match_query column v
        = [(column, Bson.doc [("$eq", v)])])
    ∧ (ComparisonFunction.notEqual.mongodb_match_query column v
        = [(column, Bson.doc [("$ne", v)])])
    ∧ (ComparisonFunction.lessThan.mongodb_match_query column v
        = [(column, Bson.doc [("$lt", v)])])
    ∧ (ComparisonFunction.lessThanOrEqual.mongodb_match_query column v
        = [(column, Bson.doc [("$lte", v)])])
    ∧ (ComparisonFunction.greaterThan.mongodb_match_query column v
        = [(column, Bson.doc [("$gt", v)])])
    ∧ (ComparisonFunction.greaterThanOrEqual.mongodb_match_query column v
        = [(column, Bson.doc [("$gte", v)])])
    ∧ (ComparisonFunction.regex.mongodb_match_query column v
        = [(column, Bson.doc [("$regex", v)])])
    ∧ (ComparisonFunction.iregex.mongodb_match_query column v
        = [(column, Bson.doc [("$regex", v), ("$options", Bson.str "i")])])
    ∧ (ComparisonFunction.equal.mongodb_aggregation_expression col v
        = [("$eq", Bson.arr [col, v])])
    ∧ (ComparisonFunction.notEqual.mongodb_aggregation_expression col v
        = [("$ne", Bson.arr [col, v])])
    ∧ (ComparisonFunction.lessThan.mongodb_aggregation_expression col v
        = [("$lt", Bson.arr [col, v])])
    ∧ (ComparisonFunction.lessThanOrEqual.mongodb_aggregation_expression col v
        = [("$lte", Bson.arr [col, v])])
    ∧ (ComparisonFunction.greaterThan.mongodb_aggregation_expression col v
        = [("$gt", Bson.arr [col, v])])
    ∧ (ComparisonFunction.greaterThanOrEqual.mongodb_aggregation_expression col v
        = [("$gte", Bson.arr [col, v])])
    ∧ (ComparisonFunction.regex.mongodb_aggregation_expression col v
        = [("$regexMatch", Bson.doc [("input", col), ("regex", v)])])
    ∧ (ComparisonFunction.iregex.mongodb_aggregation_expression col v
        = [("$regexMatch",
            Bson.doc [("input", col), ("regex", v), ("options", Bson.str "i")])]) := by
  refine ⟨rfl, rfl, rfl, rfl, rfl, rfl, rfl, rfl, rfl, rfl, rfl, rfl,
    rfl, rfl, rfl, rfl, rfl, rfl, rfl, rfl, rfl, rfl, rfl⟩

/-! ## Response serialization

Embedding of `mongodb-agent-common/src/query/response.rs`. The plan types
(`mongo_query_plan::Type`, `Field`, `NestedField`, `Query`, `QueryPlan`) live
in the external `ndc_query_plan` crate and are modelled from the spec §3
together with their usage in response.rs; the `bson_to_json` codec is taken
as a function parameter. Everything lives in a `Response` namespace to keep
the source names (`Field` in particular) available.
-/

namespace Response

/-- Modelled from the spec §3: a type is `Scalar(s)`, `Object(ObjectType)`
(an optional name plus an ordered field map, inlined into the constructor),
`ArrayOf(Type)`, or `Nullable(Type)`. -/
inductive MType where
  | scalar (s : MongoScalarType)
  | object (name : Option String) (fields : List (String × MType))
  | arrayOf (t : MType)
  | nullable (t : MType)

/-- Modelled from the spec §3: nullability is explicit, so a type is
nullable exactly when it is `Nullable(_)` (`serialization::is_nullable` is
not among the provided sources). -/
def MType.is_nullable : MType → Bool
  | .nullable _ => true
  | _ => false

/-- Modelled from the spec §4.1: `into_nullable` collapses
`Nullable(Nullable(T)) → Nullable(T)` (not among the provided sources). -/
def MType.into_nullable : MType → MType
  | .nullable t => MType.nullable t
  | t => MType.nullable t

/-- `element_type` from response.rs lines 285-292: get the type for elements
within an array type, permissively returning any non-array type unchanged. -/
def element_type : MType → MType
  | .nullable pt => element_type pt
  | .arrayOf pt => pt
  | pt => pt

/-- An aggregate definition is opaque to the response serializer (response.rs
only tests for presence); modelled as an abstract token. -/
inductive Aggregate where
  | mk

mutual
/-- Modelled from the spec §3 and the usage in response.rs: a projected field
is a typed column (optionally with a nested-field selection) or a
relationship carrying the sub-query's aggregates and fields. -/
inductive Field where
  | column (column : String) (column_type : MType) (fields : Option NestedField)
  | relationship (aggregates : Option (List (String × Aggregate)))
      (fields : Option (List (String × Field)))
/-- `NestedField::Object(NestedObject)` or `NestedField::Array(NestedArray)`. -/
inductive NestedField where
  | object (fields : List (String × Field))
  | array (fields : NestedField)
end

/-- Model of `serde_json::Value`. -/
inductive Json where
  | null
  | bool (b : Bool)
  | num (q : ℚ)
  | str (s : String)
  | arr (elems : List Json)
  | obj (fields : List (String × Json))

/-- `QueryResponseError` from response.rs lines 22-38, with one extra
constructor modelling the `unreachable!()` panic in `serialize_rows` (the
row type is an object type, so the codec is expected to return an object). -/
inductive QueryResponseError (E : Type) where
  | aggregatesNotObject (path : List String)
  | bsonDeserialization (message : String)
  | bsonToJson (e : E)
  | expectedSingleDocument
  | noFieldsSelected (path : List String)
  | unreachableRowIsNotObject

/-- `type_for_aggregates` from response.rs lines 214-217: the aggregates
response type is the permissive ExtendedJSON stub. -/
def type_for_aggregates {E : Type} : Except (QueryResponseError E) MType :=
  .ok (MType.scalar MongoScalarType.extendedJSON)

mutual

/-- `type_for_row_set` from response.rs lines 192-212. -/
def type_for_row_set {E : Type} (path : List String)
    (aggregates : Option (List (String × Aggregate)))
    (fields : Option (List (String × Field))) : Except (QueryResponseError E) MType :=
  match (if aggregates.isSome then
          (type_for_aggregates (E := E)).map fun t => [("aggregates", t)]
        else .ok []) with
  | .error e => .error e
  | .ok agg_fields =>
    match fields with
    | some query_fields =>
      match type_for_row path query_fields with
      | .error e => .error e
      | .ok row_type =>
          .ok (MType.object none (agg_fields ++ [("rows", MType.arrayOf row_type)]))
    | none => .ok (MType.object none agg_fields)
termination_by (sizeOf fields, 0)

/-- `type_for_row` from response.rs lines 219-231. -/
def type_for_row {E : Type} (path : List String) (query_fields : List (String × Field)) :
    Except (QueryResponseError E) MType :=
  match type_for_row_fields path query_fields with
  | .error e => .error e
  | .ok fields => .ok (MType.object none fields)
termination_by (sizeOf query_fields, 1)

/-- The field-by-field traversal inside `type_for_row` (the `try_collect`
over the field map). -/
def type_for_row_fields {E : Type} (path : List String) :
    List (String × Field) → Except (QueryResponseError E) (List (String × MType))
  | [] => .ok []
  | (field_name, field_definition) :: rest =>
    match type_for_field (path ++ [field_name]) field_definition with
    | .error e => .error e
    | .ok t =>
      match type_for_row_fields path rest with
      | .error e => .error e
      | .ok ts => .ok ((field_name, t) :: ts)
termination_by l => (sizeOf l, 0)

/-- `type_for_field` from response.rs lines 233-250. -/
def type_for_field {E : Type} (path : List String) :
    Field → Except (QueryResponseError E) MType
  | .column _ column_type none => .ok column_type
  | .column _ column_type (some nested_field) =>
      type_for_nested_field path column_type nested_field
  | .relationship aggregates fields => type_for_row_set path aggregates fields
termination_by f => (sizeOf f, 0)

/-- `type_for_nested_field` from response.rs lines 252-283: nested-object and
nested-array projections, propagating the parent type's nullability. -/
def type_for_nested_field {E : Type} (path : List String) (parent_type : MType) :
    NestedField → Except (QueryResponseError E) MType
  | .object fields =>
    match type_for_row path fields with
    | .error e => .error e
    | .ok t => .ok (if parent_type.is_nullable then t.into_nullable else t)
  | .array nested_field =>
    match type_for_nested_field (path ++ ["[]"]) (element_type parent_type) nested_field with
    | .error e => .error e
    | .ok et =>
      let t := MType.arrayOf et
      .ok (if parent_type.is_nullable then t.into_nullable else t)
termination_by nf => (sizeOf nf, 0)

end

end Response

namespace Response

/-- `BsonRowSet` from response.rs lines 54-60. -/
structure BsonRowSet where
  aggregates : Bson
  rows : List (List (String × Bson))

/-- `ndc_models::RowSet` as produced by the serializer: optional aggregates
and optional rows (each row a map from field name to JSON value). -/
structure RowSet where
  aggregates : Option (List (String × Json))
  rows : Option (List (List (String × Json)))

/-- Modelled from the serde `Deserialize` derive for `BsonRowSet`
(response.rs lines 54-60): `aggregates` defaults to BSON null and `rows`
defaults to the empty list when absent; a present `rows` field must be an
array of documents. -/
def parse_bson_row_set (document : List (String × Bson)) : Except String BsonRowSet :=
  let aggregates := (document.lookup "aggregates").getD Bson.null
  match document.lookup "rows" with
  | none => .ok { aggregates := aggregates, rows := [] }
  | some (Bson.arr docs) =>
      (docs.mapM fun d =>
        match d with
        | Bson.doc fields => Except.ok fields
        | _ => Except.error "expected a document in rows").map
        fun rows => { aggregates := aggregates, rows := rows }
  | some _ => .error "expected rows to be an array"

/-- Modelled from the serde derive for `ResponseForVariableSetsRowsOnly`
(response.rs lines 44-47): the document must have a `row_sets` field holding
an array of arrays of documents. -/
def parse_response_for_variable_sets_rows_only (document : List (String × Bson)) :
    Except String (List (List (List (String × Bson)))) :=
  match document.lookup "row_sets" with
  | some (Bson.arr sets) =>
      sets.mapM fun set =>
        match set with
        | Bson.arr docs =>
            docs.mapM fun d =>
              match d with
              | Bson.doc fields => Except.ok fields
              | _ => Except.error "expected a document in row set"
        | _ => Except.error "expected row set to be an array"
  | _ => .error "expected a row_sets field holding an array"

/-- Modelled from the serde derive for `ResponseForVariableSetsAggregates`
(response.rs lines 49-52): the document must have a `row_sets` field holding
an array of `BsonRowSet` documents. -/
def parse_response_for_variable_sets_aggregates (document : List (String × Bson)) :
    Except String (List BsonRowSet) :=
  match document.lookup "row_sets" with
  | some (Bson.arr sets) =>
      sets.mapM fun set =>
        match set with
        | Bson.doc fields => parse_bson_row_set fields
        | _ => Except.error "expected row set to be a document"
  | _ => .error "expected a row_sets field holding an array"

/-- `parse_single_document` from response.rs lines 294-304: take the first
document of the sequence (failing with `ExpectedSingleDocument` when there is
none) and deserialize it. -/
def parse_single_document {E T : Type}
    (from_document : List (String × Bson) → Except String T)
    (documents : List (List (String × Bson))) : Except (QueryResponseError E) T :=
  match documents with
  | [] => .error .expectedSingleDocument
  | document :: _ =>
    match from_document document with
    | .ok value => .ok value
    | .error e => .error (.bsonDeserialization e)

/-- `serialize_aggregates` from response.rs lines 149-166. -/
def serialize_aggregates {E : Type} (bson_to_json : MType → Bson → Except E Json)
    (path : List String) (_query_aggregates : List (String × Aggregate)) (value : Bson) :
    Except (QueryResponseError E) (List (String × Json)) :=
  match type_for_aggregates (E := E) with
  | .error e => .error e
  | .ok aggregates_type =>
    match bson_to_json aggregates_type value with
    | .error e => .error (.bsonToJson e)
    | .ok json =>
      match json with
      | .obj obj => .ok obj
      | _ => .error (.aggregatesNotObject path)

/-- `serialize_rows` from response.rs lines 168-190 (the `unreachable!()` arm
is modelled by the dedicated error constructor). -/
def serialize_rows {E : Type} (bson_to_json : MType → Bson → Except E Json)
    (path : List String) (query_fields : List (String × Field))
    (docs : List (List (String × Bson))) :
    Except (QueryResponseError E) (List (List (String × Json))) :=
  match type_for_row (E := E) path query_fields with
  | .error e => .error e
  | .ok row_type =>
      docs.mapM fun d =>
        match bson_to_json row_type (Bson.doc d) with
        | .error e => .error (.bsonToJson e)
        | .ok (.obj obj) => .ok obj
        | .ok _ => .error .unreachableRowIsNotObject

/-- The slice of `mongo_query_plan::Query` used by the response serializer
(modelled from the spec §3). -/
structure Query where
  aggregates : Option (List (String × Aggregate))
  fields : Option (List (String × Field))

/-- The slice of `mongo_query_plan::QueryPlan` used by the response
serializer (modelled from the spec §3); a variable set binds variable names
to values. (The source field is named `variables`, which Lean reserves.) -/
structure QueryPlan where
  collection : String
  query : Query
  variable_sets : Option (List (List (String × Json)))

/-- Modelled from the spec §4.7 dispatch table: a plan has variables when the
request carried a variable-set list (`QueryPlan::has_variables` is defined in
the external `ndc_query_plan` crate). -/
def QueryPlan.has_variables (query_plan : QueryPlan) : Bool :=
  query_plan.variable_sets.isSome

/-- Modelled from the spec §4.7 dispatch table: a query has aggregates when
the plan carries an aggregates map (`Query::has_aggregates` is defined in the
external `ndc_query_plan` crate). -/
def Query.has_aggregates (query : Query) : Bool :=
  query.aggregates.isSome

/-- `serialize_row_set_rows_only` from response.rs lines 109-125. -/
def serialize_row_set_rows_only {E : Type} (bson_to_json : MType → Bson → Except E Json)
    (path : List String) (query : Query) (docs : List (List (String × Bson))) :
    Except (QueryResponseError E) RowSet :=
  match query.fields with
  | none => .ok { aggregates := none, rows := none }
  | some fields =>
    match serialize_rows bson_to_json path fields docs with
    | .error e => .error e
    | .ok rows => .ok { aggregates := none, rows := some rows }

/-- `serialize_row_set_with_aggregates` from response.rs lines 127-147. -/
def serialize_row_set_with_aggregates {E : Type}
    (bson_to_json : MType → Bson → Except E Json) (path : List String) (query : Query)
    (row_set : BsonRowSet) : Except (QueryResponseError E) RowSet :=
  match (match query.aggregates with
         | none => Except.ok none
         | some aggs => (serialize_aggregates bson_to_json path aggs row_set.aggregates).map some) with
  | .error e => .error e
  | .ok aggregates =>
    match (match query.fields with
           | none => Except.ok none
           | some fields => (serialize_rows bson_to_json path fields row_set.rows).map some) with
    | .error e => .error e
    | .ok rows => .ok { aggregates := aggregates, rows := rows }

/-- `serialize_query_response` from response.rs lines 62-107: dispatch on
variables/aggregates presence. -/
def serialize_query_response {E : Type} (bson_to_json : MType → Bson → Except E Json)
    (query_plan : QueryPlan) (response_documents : List (List (String × Bson))) :
    Except (QueryResponseError E) (List RowSet) :=
  let collection_name := query_plan.collection
  if query_plan.has_variables && query_plan.query.has_aggregates then
    match parse_single_document parse_response_for_variable_sets_aggregates
        response_documents with
    | .error e => .error e
    | .ok responses =>
        responses.mapM fun row_set =>
          serialize_row_set_with_aggregates bson_to_json [collection_name] query_plan.query
            row_set
  else if query_plan.variable_sets.isSome then
    match parse_single_document parse_response_for_variable_sets_rows_only
        response_documents with
    | .error e => .error e
    | .ok responses =>
        responses.mapM fun row_set =>
          serialize_row_set_rows_only bson_to_json [collection_name] query_plan.query row_set
  else if query_plan.query.has_aggregates then
    match parse_single_document parse_bson_row_set response_documents with
    | .error e => .error e
    | .ok row_set =>
        (serialize_row_set_with_aggregates bson_to_json [] query_plan.query row_set).map
          fun rs => [rs]
  else
    (serialize_row_set_rows_only bson_to_json [] query_plan.query response_documents).map
      fun rs => [rs]

end Response

namespace Response

theorem is_nullable_into_nullable (t : MType) : t.into_nullable.is_nullable = true := by
  cases t <;> rfl

theorem type_for_row_is_object {E : Type} (path : List String)
    (query_fields : List (String × Field)) (t : MType)
    (h : type_for_row (E := E) path query_fields = .ok t) : t.is_nullable = false := by
  unfold type_for_row at h
  cases hr : type_for_row_fields (E := E) path query_fields with
  | error e => rw [hr] at h; exact absurd h (by simp)
  | ok fs =>
    rw [hr] at h
    simp only [Except.ok.injEq] at h
    rw [← h]
    rfl

/-- C2: `serialize_query_response` dispatches on exactly four shapes. With
variables and aggregates it parses the first (and only expected) response
document as `row_sets` holding a list of aggregates/rows objects; with
variables but no aggregates, as `row_sets` holding a list of row arrays;
with aggregates but no variables, as a single aggregates/rows document; and
with neither it treats the whole document sequence as the rows of one row
set. -/
theorem C2_serialize_query_response_dispatch {E : Type}
    (bson_to_json : MType → Bson → Except E Json) (query_plan : QueryPlan)
    (response_documents : List (List (String × Bson))) :
    serialize_query_response bson_to_json query_plan response_documents =
      if query_plan.has_variables && query_plan.query.has_aggregates then
        match response_documents.head? with
        | none => .error .expectedSingleDocument
        | some document =>
          match parse_response_for_variable_sets_aggregates document with
          | .error e => .error (.bsonDeserialization e)
          | .ok responses =>
              responses.mapM fun row_set =>
                serialize_row_set_with_aggregates bson_to_json [query_plan.collection]
                  query_plan.query row_set
      else if query_plan.variable_sets.isSome then
        match response_documents.head? with
        | none => .error .expectedSingleDocument
        | some document =>
          match parse_response_for_variable_sets_rows_only document with
          | .error e => .error (.bsonDeserialization e)
          | .ok responses =>
              responses.mapM fun row_set =>
                serialize_row_set_rows_only bson_to_json [query_plan.collection]
                  query_plan.query row_set
      else if query_plan.query.has_aggregates then
        match response_documents.head? with
        | none => .error .expectedSingleDocument
        | some document =>
          match parse_bson_row_set document with
          | .error e => .error (.bsonDeserialization e)
          | .ok row_set =>
              (serialize_row_set_with_aggregates bson_to_json [] query_plan.query
                row_set).map fun rs => [rs]
      else
        (serialize_row_set_rows_only bson_to_json [] query_plan.query
          response_documents).map fun rs => [rs] := by
  cases response_documents with
  | nil => rfl
  | cons d rest =>
    by_cases h1 : (query_plan.has_variables && query_plan.query.has_aggregates) = true
    · simp only [serialize_query_response, parse_single_document, h1, if_true, List.head?]
      cases hp : parse_response_for_variable_sets_aggregates d <;> simp [hp]
    · by_cases h2 : query_plan.variable_sets.isSome = true
      · simp only [serialize_query_response, parse_single_document, List.head?]
        simp only [h1, h2, if_true, if_false]
        simp only [Bool.not_eq_true] at h1
        simp only [h1, Bool.false_eq_true, if_false]
        cases hp : parse_response_for_variable_sets_rows_only d <;> simp [hp]
      · by_cases h3 : query_plan.query.has_aggregates = true
        · simp only [Bool.not_eq_true] at h2
          have hv : query_plan.has_variables = false := h2
          simp only [serialize_query_response, parse_single_document, List.head?]
          simp only [hv, h2, h3, Bool.false_and, Bool.false_eq_true, if_false, if_true]
          cases hp : parse_bson_row_set d <;> simp [hp]
        · simp only [Bool.not_eq_true] at h1 h2 h3
          simp [serialize_query_response, h1, h2, h3]

/-- C10: in the single-document response shapes, parsing fails with
`ExpectedSingleDocument` exactly when the document sequence from MongoDB is
empty; on a sequence with more than one document the first is used and the
remaining documents are silently ignored; and `serialize_query_response` on
an empty sequence fails with `ExpectedSingleDocument` exactly when the plan
has variables or aggregates. -/
theorem C10_parse_single_document_first_only {E T : Type}
    (from_document : List (String × Bson) → Except String T)
    (bson_to_json : MType → Bson → Except E Json) (query_plan : QueryPlan)
    (document : List (String × Bson)) (rest documents : List (List (String × Bson))) :
    (parse_single_document (E := E) from_document documents
        = .error .expectedSingleDocument ↔ documents = [])
    ∧ parse_single_document (E := E) from_document (document :: rest)
        = parse_single_document (E := E) from_document [document]
    ∧ serialize_query_response bson_to_json query_plan []
        = (if query_plan.has_variables || query_plan.query.has_aggregates then
            .error .expectedSingleDocument
          else
            (serialize_row_set_rows_only bson_to_json [] query_plan.query []).map
              fun rs => [rs]) := by
  refine ⟨?_, rfl, ?_⟩
  · cases documents with
    | nil => simp [parse_single_document]
    | cons d ds =>
      simp only [parse_single_document]
      cases hd : from_document d <;> simp
  · by_cases hv : query_plan.has_variables = true
      <;> by_cases ha : query_plan.query.has_aggregates = true
      <;> simp [serialize_query_response, parse_single_document,
            QueryPlan.has_variables, Query.has_aggregates] at hv ha ⊢
      <;> simp [hv, ha]

/-- C4: the synthetic type built for a nested-object projection is nullable
if and only if the parent column type is nullable, and likewise for a
nested-array projection; `element_type` unwraps Nullable and ArrayOf layers
and returns any other type unchanged as a permissive fallback. -/
theorem C4_nested_field_nullability {E : Type} (path : List String) (parent_type : MType)
    (nested_field : NestedField) (t : MType)
    (h : type_for_nested_field (E := E) path parent_type nested_field = .ok t) :
    (t.is_nullable = parent_type.is_nullable)
    ∧ (∀ u : MType, element_type (MType.nullable u) = element_type u)
    ∧ (∀ u : MType, element_type (MType.arrayOf u) = u)
    ∧ (∀ s : MongoScalarType, element_type (MType.scalar s) = MType.scalar s)
    ∧ (∀ nm fs, element_type (MType.object nm fs) = MType.object nm fs) := by
  refine ⟨?_, fun u => rfl, fun u => rfl, fun s => rfl, fun nm fs => rfl⟩
  cases nested_field with
  | object fields =>
    unfold type_for_nested_field at h
    cases hr : type_for_row (E := E) path fields with
    | error e => rw [hr] at h; exact absurd h (by simp)
    | ok t' =>
      rw [hr] at h
      simp only [Except.ok.injEq] at h
      rw [← h]
      by_cases hp : parent_type.is_nullable = true
      · simp [hp, is_nullable_into_nullable]
      · simp only [Bool.not_eq_true] at hp
        simp [hp, type_for_row_is_object (E := E) path fields t' hr]
  | array nf =>
    unfold type_for_nested_field at h
    cases hr : type_for_nested_field (E := E) (path ++ ["[]"]) (element_type parent_type) nf with
    | error e => rw [hr] at h; exact absurd h (by simp)
    | ok et =>
      rw [hr] at h
      simp only [Except.ok.injEq] at h
      rw [← h]
      by_cases hp : parent_type.is_nullable = true
      · simp [hp, is_nullable_into_nullable]
      · simp only [Bool.not_eq_true] at hp
        simp [hp]
        rfl

/-- Witness for C4: a nested-object projection under the nullable parent type
`Nullable(Object)` produces the nullable synthetic type. -/
theorem C4_nested_field_nullability_witness :
    ((MType.nullable (MType.object none [])).is_nullable
        = (MType.nullable (MType.object none [])).is_nullable)
    ∧ (∀ u : MType, element_type (MType.nullable u) = element_type u)
    ∧ (∀ u : MType, element_type (MType.arrayOf u) = u)
    ∧ (∀ s : MongoScalarType, element_type (MType.scalar s) = MType.scalar s)
    ∧ (∀ nm fs, element_type (MType.object nm fs) = MType.object nm fs) := by
  have h : type_for_nested_field (E := Unit) [] (MType.nullable (MType.object none []))
      (NestedField.object []) = .ok (MType.nullable (MType.object none [])) := by
    simp [type_for_nested_field, type_for_row, type_for_row_fields, MType.is_nullable,
      MType.into_nullable]
  exact C4_nested_field_nullability (E := Unit) [] (MType.nullable (MType.object none []))
    (NestedField.object []) (MType.nullable (MType.object none [])) h

end Response

/-! ## Foreach / variables fan-out

Embedding of `mongodb-agent-common/src/query/foreach.rs`. The `dc_api_types`
request model and the `Pipeline`/`Stage` types live outside the provided
sources and are modelled from the spec (§3, §4.5) and their usage in
foreach.rs; `pipeline_for_non_foreach` is taken as a function parameter.
-/

namespace Foreach

/-- `dc_api_types::ScalarValue`: a JSON value paired with its declared type
name (modelled from the usage in `make_expression`). -/
structure ScalarValue where
  value : Response.Json
  value_type : String

/-- `dc_api_types::ColumnSelector` as produced by `ColumnSelector::new`. -/
inductive ColumnSelector where
  | column (name : String)

/-- The slice of `dc_api_types::ComparisonColumn` used by foreach.rs. -/
structure ComparisonColumn where
  column_type : String
  name : ColumnSelector
  path : Option (List String)

/-- The slice of `dc_api_types::BinaryComparisonOperator` used by
foreach.rs (`Equal`). -/
inductive BinaryComparisonOperator where
  | equal

/-- The slice of `dc_api_types::ComparisonValue` used by foreach.rs. -/
inductive ComparisonValue where
  | scalarValueComparison (value : Response.Json) (value_type : String)
  | variableComparison (name : String)

/-- The slice of `dc_api_types::Expression` used by foreach.rs. -/
inductive Expression where
  | and (expressions : List Expression)
  | applyBinaryComparison (column : ComparisonColumn)
      (operator : BinaryComparisonOperator) (value : ComparisonValue)

/-- Modelled from the spec §4.5 ("AND the predicate map into the plan's
predicate"): `dc_api_types::Expression::and` conjoins two predicates; it is
not among the provided sources. -/
def Expression.andWith (e other : Expression) : Expression :=
  .and [e, other]

/-- The slice of `dc_api_types::Query` used by foreach.rs: the `where`
predicate (the source field is `r#where`, which Lean reserves). -/
structure Query where
  where_ : Option Expression

/-- The slice of `dc_api_types::QueryRequest` used by foreach.rs. A foreach
element maps column names to scalar values; a variable set maps variable
names to JSON values. (The source field `variables` is reserved in Lean and
is named `variable_sets` here.) -/
structure QueryRequest where
  query : Query
  foreach : Option (Option (List (List (String × ScalarValue))))
  variable_sets : Option (List (List (String × Response.Json)))

/-- `ForeachVariant` from foreach.rs lines 22-26. -/
inductive ForeachVariant where
  | predicate (expression : Expression)
  | variableSet (vs : List (String × Response.Json))

/-- `make_expression` from foreach.rs lines 97-121: fold a foreach
column-to-value map into an `$and` of column-equals-value comparisons. -/
def make_expression (column_values : List (String × ScalarValue)) : Expression :=
  .and (column_values.map fun cv =>
    .applyBinaryComparison
      { column_type := cv.2.value_type, name := .column cv.1, path := none }
      .equal
      (.scalarValueComparison cv.2.value cv.2.value_type))

/-- `foreach_variants` from foreach.rs lines 31-49. -/
def foreach_variants (query_request : QueryRequest) : Option (List ForeachVariant) :=
  match query_request.foreach with
  | some (some foreach) =>
      some (foreach.map fun column_values => .predicate (make_expression column_values))
  | _ =>
    match query_request.variable_sets with
    | some vs => some (vs.map .variableSet)
    | none => none

mutual
/-- Aggregation pipelines: an ordered list of stages (the
`mongodb-agent-common` `Pipeline`/`Stage`/`Selection` types are not among
the provided sources; modelled from the spec §4.5 and their usage in
foreach.rs). -/
inductive Pipeline where
  | mk (stages : List Stage)
/-- The stages built by `pipeline_for_foreach`; a `Selection` (the document
of a `$replaceWith` stage) is a BSON document. -/
inductive Stage where
  | facet (queries : List (String × Pipeline))
  | replaceWith (selection : List (String × Bson))
end

/-- The `stages` field of `Pipeline`. -/
def Pipeline.stages : Pipeline → List Stage
  | .mk stages => stages

/-- `FACET_FIELD` from foreach.rs line 18. -/
def FACET_FIELD : String := "__FACET__"

/-- `facet_name` from foreach.rs lines 123-125. -/
def facet_name (index : Nat) : String :=
  FACET_FIELD ++ "_" ++ toString index

/-- The variable set passed to `pipeline_for_non_foreach` for one foreach
variant (the destructuring at foreach.rs lines 65-68). -/
def variant_variables : ForeachVariant → Option (List (String × Response.Json))
  | .predicate _ => none
  | .variableSet vs => some vs

/-- The per-variant request clone of foreach.rs lines 69-77: for a predicate
variant the foreach predicate is conjoined onto any existing `where`. -/
def variant_request (query_request : QueryRequest) : ForeachVariant → QueryRequest
  | .predicate predicate =>
      { query_request with
        query := { where_ := some (match query_request.query.where_ with
          | some e_old => e_old.andWith predicate
          | none => predicate) } }
  | .variableSet _ => query_request

/-- The `collect::<Result<_, MongoAgentError>>()` over the enumerated foreach
variants (foreach.rs lines 61-82): compile each variant in order, stopping at
the first error. -/
def collect_pipelines {ε : Type}
    (pipeline_for_non_foreach :
      Option (List (String × Response.Json)) → QueryRequest → Except ε Pipeline)
    (query_request : QueryRequest) :
    List (Nat × ForeachVariant) → Except ε (List (String × Pipeline))
  | [] => .ok []
  | (index, foreach_variant) :: rest =>
    match (pipeline_for_non_foreach (variant_variables foreach_variant)
        (variant_request query_request foreach_variant)).map
        (fun pipeline => (facet_name index, pipeline)) with
    | .error e => .error e
    | .ok pair =>
      match collect_pipelines pipeline_for_non_foreach query_request rest with
      | .error e => .error e
      | .ok pipelines => .ok (pair :: pipelines)

/-- `pipeline_for_foreach` from foreach.rs lines 56-95: compile one
sub-pipeline per variant, wrap them in a `$facet` keyed by `__FACET___i`, and
append a `$replaceWith` selecting `row_sets` as the facet references in index
order. -/
def pipeline_for_foreach {ε : Type}
    (pipeline_for_non_foreach :
      Option (List (String × Response.Json)) → QueryRequest → Except ε Pipeline)
    (foreach : List ForeachVariant) (query_request : QueryRequest) : Except ε Pipeline :=
  match collect_pipelines pipeline_for_non_foreach query_request foreach.enum with
  | .error e => .error e
  | .ok pipelines =>
    let selection : List (String × Bson) :=
      [("row_sets", Bson.arr (pipelines.map fun p => Bson.str ("$" ++ p.1)))]
    .ok (Pipeline.mk [Stage.facet pipelines, Stage.replaceWith selection])

end Foreach

namespace Foreach

theorem collect_pipelines_ok {ε : Type}
    (pfnf : Option (List (String × Response.Json)) → QueryRequest → Except ε Pipeline)
    (query_request : QueryRequest) :
    ∀ (l : List ForeachVariant) (n : Nat) (pipelines : List (String × Pipeline)),
      collect_pipelines pfnf query_request (List.enumFrom n l) = .ok pipelines →
      (pipelines.map Prod.fst = (List.range' n l.length).map facet_name
       ∧ ∀ k v, l[k]? = some v →
           ∃ p, pipelines[k]? = some (facet_name (n + k), p)
             ∧ pfnf (variant_variables v) (variant_request query_request v) = .ok p) := by
  intro l
  induction l with
  | nil =>
    intro n pipelines h
    simp only [List.enumFrom, collect_pipelines, Except.ok.injEq] at h
    refine ⟨?_, ?_⟩
    · rw [← h]; rfl
    · intro k v hv
      simp at hv
  | cons v rest ih =>
    intro n pipelines h
    simp only [List.enumFrom] at h
    cases hp : pfnf (variant_variables v) (variant_request query_request v) with
    | error e =>
      rw [collect_pipelines, hp] at h
      exact absurd h (by simp [Except.map])
    | ok p =>
      cases hrest : collect_pipelines pfnf query_request (List.enumFrom (n + 1) rest) with
      | error e =>
        rw [collect_pipelines, hp] at h
        simp only [Except.map, hrest] at h
        exact absurd h (by simp)
      | ok restp =>
        rw [collect_pipelines, hp] at h
        simp only [Except.map, hrest, Except.ok.injEq] at h
        obtain ⟨h1, h2⟩ := ih (n + 1) restp hrest
        refine ⟨?_, ?_⟩
        · rw [← h]
          simp only [List.map_cons, List.length_cons, h1]
          rfl
        · intro k w hv
          cases k with
          | zero =>
            simp only [List.getElem?_cons_zero, Option.some.injEq] at hv
            refine ⟨p, ?_, ?_⟩
            · rw [← h]
              simp
            · rw [← hv]
              exact hp
          | succ k =>
            simp only [List.getElem?_cons_succ] at hv
            obtain ⟨p', hp', hc'⟩ := h2 k w hv
            refine ⟨p', ?_, hc'⟩
            rw [← h]
            simpa [Nat.add_assoc, Nat.add_comm 1 k] using hp'

/-- C1: for every foreach or variables request, `pipeline_for_foreach`
produces exactly two stages: a `$facet` whose branches are named
`__FACET___0` … `__FACET___(n-1)` in index order, branch i holding the
sub-pipeline compiled for element i (for foreach, the element's
column-to-value equality map is folded into an `$and` expression by
`make_expression` and conjoined with any existing predicate), followed by a
`$replaceWith` producing `row_sets` as the facet references in the same
index order. -/
theorem C1_pipeline_for_foreach_shape {ε : Type}
    (pipeline_for_non_foreach :
      Option (List (String × Response.Json)) → QueryRequest → Except ε Pipeline)
    (foreach : List ForeachVariant) (query_request : QueryRequest) (result : Pipeline)
    (h : pipeline_for_foreach pipeline_for_non_foreach foreach query_request = .ok result) :
    (∃ branches : List (String × Pipeline),
      result = Pipeline.mk [Stage.facet branches,
        Stage.replaceWith [("row_sets",
          Bson.arr ((List.range foreach.length).map fun i =>
            Bson.str ("$" ++ facet_name i)))]]
      ∧ branches.map Prod.fst = (List.range foreach.length).map facet_name
      ∧ ∀ k v, foreach[k]? = some v →
          ∃ p, branches[k]? = some (facet_name k, p)
            ∧ pipeline_for_non_foreach (variant_variables v)
                (variant_request query_request v) = .ok p)
    ∧ (∀ (qr : QueryRequest) maps, qr.foreach = some (some maps) →
        foreach_variants qr = some (maps.map fun m => .predicate (make_expression m)))
    ∧ (∀ m, make_expression m = .and (m.map fun cv =>
        .applyBinaryComparison
          { column_type := cv.2.value_type, name := .column cv.1, path := none }
          .equal (.scalarValueComparison cv.2.value cv.2.value_type))) := by
  refine ⟨?_, ?_, fun m => rfl⟩
  · unfold pipeline_for_foreach at h
    cases hc : collect_pipelines pipeline_for_non_foreach query_request foreach.enum with
    | error e => rw [hc] at h; exact absurd h (by simp)
    | ok pipelines =>
      rw [hc] at h
      simp only [Except.ok.injEq] at h
      obtain ⟨h1, h2⟩ := collect_pipelines_ok pipeline_for_non_foreach query_request foreach 0
        pipelines hc
      have hsel : pipelines.map (fun p => Bson.str ("$" ++ p.1))
          = (List.range foreach.length).map fun i => Bson.str ("$" ++ facet_name i) := by
        have := congrArg (List.map fun s => Bson.str ("$" ++ s)) h1
        rw [List.range_eq_range' foreach.length]
        simpa [List.map_map, Function.comp] using this
      refine ⟨pipelines, ?_, ?_, ?_⟩
      · rw [← h, hsel]
      · rw [h1, List.range_eq_range' foreach.length]
      · intro k v hv
        obtain ⟨p, hp', hc'⟩ := h2 k v hv
        exact ⟨p, by simpa using hp', hc'⟩
  · intro qr maps hf
    simp [foreach_variants, hf]

/-- A foreach request with two elements, as in the spec's fan-out scenario. -/
def example_foreach_request : QueryRequest :=
  { query := { where_ := none }
    foreach := some (some
      [[("artistId", { value := Response.Json.num 1, value_type := "int" })],
       [("artistId", { value := Response.Json.num 2, value_type := "int" })]])
    variable_sets := none }

/-- A trivial stand-in for `pipeline_for_non_foreach` that compiles every
request to the empty pipeline. -/
def trivial_pfnf :
    Option (List (String × Response.Json)) → QueryRequest → Except Unit Pipeline :=
  fun _ _ => .ok (Pipeline.mk [])

/-- The foreach variants of `example_foreach_request`. -/
def example_variants : List ForeachVariant :=
  (foreach_variants example_foreach_request).getD []

/-- Witness for C1 at the two-element foreach request. -/
theorem C1_pipeline_for_foreach_witness :
    (∃ branches : List (String × Pipeline),
      Pipeline.mk [Stage.facet [(facet_name 0, Pipeline.mk []), (facet_name 1, Pipeline.mk [])],
          Stage.replaceWith [("row_sets",
            Bson.arr [Bson.str ("$" ++ facet_name 0), Bson.str ("$" ++ facet_name 1)])]]
        = Pipeline.mk [Stage.facet branches,
            Stage.replaceWith [("row_sets",
              Bson.arr ((List.range example_variants.length).map fun i =>
                Bson.str ("$" ++ facet_name i)))]]
      ∧ branches.map Prod.fst = (List.range example_variants.length).map facet_name
      ∧ ∀ k v, example_variants[k]? = some v →
          ∃ p, branches[k]? = some (facet_name k, p)
            ∧ trivial_pfnf (variant_variables v)
                (variant_request example_foreach_request v) = .ok p)
    ∧ (∀ (qr : QueryRequest) maps, qr.foreach = some (some maps) →
        foreach_variants qr = some (maps.map fun m => .predicate (make_expression m)))
    ∧ (∀ m, make_expression m = .and (m.map fun cv =>
        .applyBinaryComparison
          { column_type := cv.2.value_type, name := .column cv.1, path := none }
          .equal (.scalarValueComparison cv.2.value cv.2.value_type))) :=
  C1_pipeline_for_foreach_shape trivial_pfnf example_variants example_foreach_request
    (Pipeline.mk [Stage.facet [(facet_name 0, Pipeline.mk []), (facet_name 1, Pipeline.mk [])],
      Stage.replaceWith [("row_sets",
        Bson.arr [Bson.str ("$" ++ facet_name 0), Bson.str ("$" ++ facet_name 1)])]])
    (by rfl)

end Foreach

/-! ## Configuration validation

Embedding of `configuration/src/configuration.rs`. The `schema`,
`serialized`, `native_query`, and `native_mutation` modules of the
configuration crate are not among the provided sources; their data shapes
are modelled from the spec (§3, §6) and their usage in configuration.rs. The
`serialized → internal` conversions (`nq.into()`, `np.into()`) are modelled
as the identity. `BTreeMap`s are modelled as association maps in which a
later insert for an existing key replaces the earlier value.
-/

namespace Config

/-- `schema::Type`, modelled from the spec §3 and the `_id` check in
configuration.rs: scalars, named object types, arrays, nullability. -/
inductive SchemaType where
  | scalar (s : BsonScalarType)
  | object (name : String)
  | arrayOf (t : SchemaType)
  | nullable (t : SchemaType)
  deriving DecidableEq

/-- `schema::ObjectField`: a type plus an optional description. -/
structure ObjectField where
  type : SchemaType
  description : Option String
  deriving DecidableEq

/-- `schema::ObjectType`: an ordered field map plus a description. -/
structure ObjectType where
  fields : List (String × ObjectField)
  description : Option String
  deriving DecidableEq

/-- `schema::Collection`: the name of its document object type plus a
description. -/
structure Collection where
  type : String
  description : Option String
  deriving DecidableEq

/-- `serialized::Schema`: collections and object types declared in the
`schema/` directory. -/
structure Schema where
  collections : List (String × Collection)
  object_types : List (String × ObjectType)

/-- `NativeQueryRepresentation` ∈ \x7bCollection, Function\x7d. -/
inductive NativeQueryRepresentation where
  | collection
  | function
  deriving DecidableEq

/-- The slice of `serialized::NativeQuery` used by configuration.rs. -/
structure NativeQuery where
  representation : NativeQueryRepresentation
  object_types : List (String × ObjectType)
  result_document_type : String
  arguments : List (String × ObjectField)
  description : Option String

/-- The slice of `serialized::NativeMutation` used by configuration.rs. -/
structure NativeMutation where
  object_types : List (String × ObjectType)
  result_type : SchemaType
  command : List (String × Bson)
  arguments : List (String × ObjectField)
  description : Option String

/-- `ndc_models::UniquenessConstraint`. -/
structure UniquenessConstraint where
  unique_columns : List String
  deriving DecidableEq

/-- `ndc_models::ArgumentInfo` (the `ndc::Type` conversion from
`schema::Type` is modelled as the identity). -/
structure ArgumentInfo where
  argument_type : SchemaType
  description : Option String
  deriving DecidableEq

/-- The slice of `ndc_models::CollectionInfo` populated by
configuration.rs (`foreign_keys` is always empty and omitted). -/
structure CollectionInfo where
  name : String
  collection_type : String
  description : Option String
  arguments : List (String × ArgumentInfo)
  uniqueness_constraints : List (String × UniquenessConstraint)
  deriving DecidableEq

/-- The slice of `ndc_models::FunctionInfo` populated by configuration.rs. -/
structure FunctionInfo where
  name : String
  description : Option String
  arguments : List (String × ArgumentInfo)
  result_type : SchemaType
  deriving DecidableEq

/-- The slice of `ndc_models::ProcedureInfo` populated by configuration.rs. -/
structure ProcedureInfo where
  name : String
  description : Option String
  arguments : List (String × ArgumentInfo)
  result_type : SchemaType
  deriving DecidableEq

/-- `ConfigurationIntrospectionOptions` from configuration.rs lines 182-203. -/
structure ConfigurationIntrospectionOptions where
  sample_size : Nat
  no_validator_schema : Bool
  all_schema_nullable : Bool

/-- `ConfigurationOptions` from configuration.rs lines 175-180. -/
structure ConfigurationOptions where
  introspection_options : ConfigurationIntrospectionOptions

/-- The defaults of `ConfigurationIntrospectionOptions` (lines 195-203). -/
def default_options : ConfigurationOptions :=
  { introspection_options :=
      { sample_size := 100, no_validator_schema := false, all_schema_nullable := true } }

/-- `Configuration` from configuration.rs lines 15-51. -/
structure Configuration where
  collections : List (String × CollectionInfo)
  functions : List (String × (FunctionInfo × CollectionInfo))
  mutations : List (String × ProcedureInfo)
  native_mutations : List (String × NativeMutation)
  native_queries : List (String × NativeQuery)
  object_types : List (String × ObjectType)
  options : ConfigurationOptions

/-- Insert into an association map, replacing the value when the key is
already bound (the effect of inserting into a `BTreeMap`; ordering is
modelled as insertion order rather than key order). -/
def map_insert {α : Type} : List (String × α) → String → α → List (String × α)
  | [], k, v => [(k, v)]
  | (k', v') :: rest, k, v =>
    if k = k' then (k, v) :: rest else (k', v') :: map_insert rest k v

/-- Collect an iterator of key-value pairs into a `BTreeMap`: later entries
overwrite earlier ones with the same key. -/
def btree_collect {α : Type} (l : List (String × α)) : List (String × α) :=
  l.foldl (fun m kv => map_insert m kv.1 kv.2) []

/-- `Itertools::duplicates` on names: each name that occurs more than once is
produced exactly once, when its second occurrence is seen. -/
def duplicates_aux : List String → List String → List String → List String
  | [], _, acc => acc.reverse
  | x :: xs, seen, acc =>
    if x ∈ seen then
      (if x ∈ acc then duplicates_aux xs seen acc else duplicates_aux xs seen (x :: acc))
    else duplicates_aux xs (x :: seen) acc

/-- The duplicated names of a list, in second-occurrence order. -/
def duplicates (l : List String) : List String :=
  duplicates_aux l [] []

/-- `Vec::join(sep)` on strings. -/
def join_strings (sep : String) : List String → String
  | [] => ""
  | [x] => x
  | x :: rest => x ++ sep ++ join_strings sep rest

/-- `merge_object_types` from configuration.rs lines 205-220: schema object
types, then native-mutation object types, then native-query object types. -/
def merge_object_types (schema : Schema)
    (native_mutations : List (String × NativeMutation))
    (native_queries : List (String × NativeQuery)) : List (String × ObjectType) :=
  schema.object_types
    ++ (native_mutations.flatMap fun nm => nm.2.object_types)
    ++ (native_queries.flatMap fun nq => nq.2.object_types)

/-- `get_primary_key_uniqueness_constraint` from configuration.rs lines
262-280. -/
def get_primary_key_uniqueness_constraint
    (object_types : List (String × ObjectType)) (name : String)
    (collection_type : String) : Option (String × UniquenessConstraint) :=
  match object_types.lookup collection_type with
  | none => none
  | some object_type =>
    match object_type.fields.lookup "_id" with
    | none => none
    | some id_field =>
      match id_field.type with
      | .scalar .objectId => some (name ++ "_id", { unique_columns := ["_id"] })
      | _ => none

/-- `arguments_to_ndc_arguments` from configuration.rs lines 320-335. -/
def arguments_to_ndc_arguments (configured_arguments : List (String × ObjectField)) :
    List (String × ArgumentInfo) :=
  configured_arguments.map fun nf =>
    (nf.1, { argument_type := nf.2.type, description := nf.2.description })

/-- `collection_to_collection_info` from configuration.rs lines 222-238. -/
def collection_to_collection_info (object_types : List (String × ObjectType))
    (name : String) (collection : Collection) : CollectionInfo :=
  { name := name
    collection_type := collection.type
    description := collection.description
    arguments := []
    uniqueness_constraints :=
      (get_primary_key_uniqueness_constraint object_types name collection.type).toList }

/-- `native_query_to_collection_info` from configuration.rs lines 240-260. -/
def native_query_to_collection_info (object_types : List (String × ObjectType))
    (name : String) (native_query : NativeQuery) : CollectionInfo :=
  { name := name
    collection_type := native_query.result_document_type
    description := native_query.description
    arguments := arguments_to_ndc_arguments native_query.arguments
    uniqueness_constraints :=
      (get_primary_key_uniqueness_constraint object_types name
        native_query.result_document_type).toList }

/-- `find_object_type` (lines 337-344) and `function_result_type` (lines
295-306): look up the result object type and require a `__value` field. -/
def function_result_type (object_types : List (String × ObjectType))
    (function_name : String) (object_type_name : String) : Except String SchemaType :=
  match object_types.lookup object_type_name with
  | none => .error ("configuration references an object type named " ++ object_type_name
      ++ ", but it is not defined")
  | some object_type =>
    match object_type.fields.lookup "__value" with
    | none => .error ("the type of the native query, " ++ function_name
        ++ ", is not valid: the type of a native query that is represented as a function"
        ++ " must be an object type with a single field named \"__value\"")
    | some value_field => .ok value_field.type

/-- `native_query_to_function_info` from configuration.rs lines 282-293. -/
def native_query_to_function_info (object_types : List (String × ObjectType))
    (name : String) (native_query : NativeQuery) : Except String FunctionInfo :=
  (function_result_type object_types name native_query.result_document_type).map fun rt =>
    { name := name
      description := native_query.description
      arguments := arguments_to_ndc_arguments native_query.arguments
      result_type := rt }

/-- `native_mutation_to_mutation_info` from configuration.rs lines 308-318. -/
def native_mutation_to_mutation_info (mutation_name : String)
    (mutation : NativeMutation) : ProcedureInfo :=
  { name := mutation_name
    description := mutation.description
    arguments := arguments_to_ndc_arguments mutation.arguments
    result_type := mutation.result_type }

/-- The regular-collection entries built at configuration.rs lines 90-95. -/
def regular_collection_infos (object_types : List (String × ObjectType))
    (schema : Schema) : List (String × CollectionInfo) :=
  schema.collections.map fun nc =>
    (nc.1, collection_to_collection_info object_types nc.1 nc.2)

/-- The collection entries contributed by collection-representation native
queries (configuration.rs lines 96-107). -/
def native_query_collection_infos (object_types : List (String × ObjectType))
    (native_queries : List (String × NativeQuery)) : List (String × CollectionInfo) :=
  native_queries.filterMap fun nq =>
    if nq.2.representation = .collection then
      some (nq.1, native_query_to_collection_info object_types nq.1 nq.2)
    else none

/-- The per-function results built at configuration.rs lines 113-130 before
`partition_result`. -/
def function_results (object_types : List (String × ObjectType))
    (native_queries : List (String × NativeQuery)) :
    List (String × Except String (FunctionInfo × CollectionInfo)) :=
  native_queries.filterMap fun nq =>
    if nq.2.representation = .function then
      some (nq.1, (native_query_to_function_info object_types nq.1 nq.2).map fun fi =>
        (fi, native_query_to_collection_info object_types nq.1 nq.2))
    else none

/-- The error side of the `partition_result` at configuration.rs line 130. -/
def function_errors (object_types : List (String × ObjectType))
    (native_queries : List (String × NativeQuery)) : List String :=
  (function_results object_types native_queries).filterMap fun r =>
    match r.2 with
    | .error e => some e
    | .ok _ => none

/-- The success side of the `partition_result` at configuration.rs line 130. -/
def function_infos (object_types : List (String × ObjectType))
    (native_queries : List (String × NativeQuery)) :
    List (String × (FunctionInfo × CollectionInfo)) :=
  (function_results object_types native_queries).filterMap fun r =>
    match r.2 with
    | .ok v => some (r.1, v)
    | .error _ => none

/-- `Configuration::validate` from configuration.rs lines 54-162: collect
duplicate object-type names into a "multiple definitions" error, build the
merged collection/function/mutation catalogs, and fail when any error was
collected. Collection names are not checked for duplication: the
`chain(...).collect()` at lines 108-110 silently lets a native-query
collection overwrite a same-named regular collection. -/
def validate (schema : Schema) (native_mutations : List (String × NativeMutation))
    (native_queries : List (String × NativeQuery)) (options : ConfigurationOptions) :
    Except String Configuration :=
  let object_types_list := merge_object_types schema native_mutations native_queries
  let duplicate_type_names := duplicates (object_types_list.map Prod.fst)
  let object_type_errors : Option String :=
    if duplicate_type_names.isEmpty then none
    else some ("configuration contains multiple definitions for these object type names: "
      ++ join_strings ", " duplicate_type_names)
  let object_types := btree_collect object_types_list
  let collections := btree_collect
    (regular_collection_infos object_types schema
      ++ native_query_collection_infos object_types native_queries)
  let functions := btree_collect (function_infos object_types native_queries)
  let mutations := btree_collect (native_mutations.map fun nm =>
    (nm.1, native_mutation_to_mutation_info nm.1 nm.2))
  let errors : List String :=
    object_type_errors.toList ++ function_errors object_types native_queries
  if errors.isEmpty then
    .ok { collections := collections
          functions := functions
          mutations := mutations
          native_mutations := native_mutations
          native_queries := native_queries
          object_types := object_types
          options := options }
  else
    .error ("connector configuration has errrors:\n  - " ++ join_strings "\n  - " errors)

end Config

namespace Config

/-- `contains_str s t`: the string `t` occurs contiguously inside `s`. -/
def contains_str (s t : String) : Prop :=
  ∃ p q, s = p ++ t ++ q

theorem contains_str_refl (s : String) : contains_str s s :=
  ⟨"", "", by simp⟩

theorem contains_str_append_left (a s t : String) (h : contains_str s t) :
    contains_str (a ++ s) t := by
  obtain ⟨p, q, hs⟩ := h
  exact ⟨a ++ p, q, by rw [hs]; simp [String.append_assoc]⟩

theorem contains_str_append_right (s b t : String) (h : contains_str s t) :
    contains_str (s ++ b) t := by
  obtain ⟨p, q, hs⟩ := h
  exact ⟨p, q ++ b, by rw [hs]; simp [String.append_assoc]⟩

theorem contains_str_trans (s t u : String) (hst : contains_str s t)
    (htu : contains_str t u) : contains_str s u := by
  obtain ⟨p1, q1, h1⟩ := hst
  obtain ⟨p2, q2, h2⟩ := htu
  exact ⟨p1 ++ p2, q2 ++ q1, by rw [h1, h2]; simp [String.append_assoc]⟩

theorem join_strings_contains (sep : String) :
    ∀ (l : List String) (x : String), x ∈ l → contains_str (join_strings sep l) x := by
  intro l
  induction l with
  | nil => intro x hx; simp at hx
  | cons y ys ih =>
    intro x hx
    cases ys with
    | nil =>
      simp only [List.mem_singleton] at hx
      rw [hx]
      exact contains_str_refl y
    | cons z zs =>
      rcases List.mem_cons.mp hx with hxy | hxr
      · subst hxy
        show contains_str (x ++ sep ++ join_strings sep (z :: zs)) x
        rw [String.append_assoc]
        exact contains_str_append_right x (sep ++ join_strings sep (z :: zs)) x
          (contains_str_refl x)
      · show contains_str (y ++ sep ++ join_strings sep (z :: zs)) x
        rw [String.append_assoc]
        exact contains_str_append_left y (sep ++ join_strings sep (z :: zs)) x
          (contains_str_append_left sep (join_strings sep (z :: zs)) x (ih x hxr))

end Config

/-- C5: whenever some object type name is declared more than once across the
schema, native-mutation, and native-query contributions,
`Configuration::validate` returns an error whose message contains the string
"multiple definitions" and contains every duplicated name. -/
theorem C5_duplicate_object_type_error (schema : Config.Schema)
    (native_mutations : List (String × Config.NativeMutation))
    (native_queries : List (String × Config.NativeQuery))
    (options : Config.ConfigurationOptions)
    (hdup : Config.duplicates
      ((Config.merge_object_types schema native_mutations native_queries).map Prod.fst)
      ≠ []) :
    ∃ msg, Config.validate schema native_mutations native_queries options = .error msg
      ∧ Config.contains_str msg "multiple definitions"
      ∧ ∀ name ∈ Config.duplicates
          ((Config.merge_object_types schema native_mutations native_queries).map Prod.fst),
          Config.contains_str msg name := by
  have hne : (Config.duplicates
      ((Config.merge_object_types schema native_mutations native_queries).map
        Prod.fst)).isEmpty = false := by
    simpa using hdup
  refine ⟨"connector configuration has errrors:\n  - "
    ++ Config.join_strings "\n  - "
      (("configuration contains multiple definitions for these object type names: "
          ++ Config.join_strings ", " (Config.duplicates
            ((Config.merge_object_types schema native_mutations native_queries).map
              Prod.fst)))
        :: Config.function_errors
          (Config.btree_collect
            (Config.merge_object_types schema native_mutations native_queries))
          native_queries), ?_, ?_, ?_⟩
  · unfold Config.validate
    simp [hne]
  · apply Config.contains_str_append_left
    apply Config.contains_str_trans _ _ _
      (Config.join_strings_contains "\n  - " _ _ (List.mem_cons_self _ _))
    apply Config.contains_str_append_right
    exact ⟨"configuration contains ", " for these object type names: ", rfl⟩
  · intro name hname
    apply Config.contains_str_append_left
    apply Config.contains_str_trans _ _ _
      (Config.join_strings_contains "\n  - " _ _ (List.mem_cons_self _ _))
    apply Config.contains_str_append_left
    exact Config.join_strings_contains ", " _ name hname

/-- The spec's duplicate-object-type scenario: object type `Album` declared
in the schema and again under native mutation `hello`. -/
def album_schema : Config.Schema :=
  { collections := []
    object_types := [("Album", { fields := [], description := none })] }

/-- The native mutation `hello` redeclaring object type `Album`. -/
def album_mutations : List (String × Config.NativeMutation) :=
  [("hello",
    { object_types := [("Album", { fields := [], description := none })]
      result_type := .object "Album"
      command := [("command", Bson.int 1)]
      arguments := []
      description := none })]

/-- Witness for C5 at the `Album`/`hello` scenario. -/
theorem C5_duplicate_object_type_error_witness :
    Config.duplicates
      ((Config.merge_object_types album_schema album_mutations []).map Prod.fst) ≠ []
    ∧ ∃ msg, Config.validate album_schema album_mutations [] Config.default_options
        = .error msg
      ∧ Config.contains_str msg "multiple definitions"
      ∧ ∀ name ∈ Config.duplicates
          ((Config.merge_object_types album_schema album_mutations []).map Prod.fst),
          Config.contains_str msg name :=
  ⟨by decide,
   C5_duplicate_object_type_error album_schema album_mutations [] Config.default_options
     (by decide)⟩

/-- A schema declaring a real collection `foo`. -/
def dupc_schema : Config.Schema :=
  { collections := [("foo", { type := "foo_t", description := none })]
    object_types := [("foo_t", { fields := [], description := none })] }

/-- A collection-representation native query also named `foo`. -/
def dupc_native_query : Config.NativeQuery :=
  { representation := .collection
    object_types := []
    result_document_type := "foo_t"
    arguments := []
    description := none }

/-- C3 counterexample: the claim says `validate` rejects inputs in which the
same collection name appears among both real collections and
collection-representation native queries, but on this input (collection
`foo` and native query `foo`) validation succeeds, and the native-query
collection has silently overwritten the regular one. -/
theorem C3_counterexample_duplicate_collection_accepted :
    ∃ config,
      Config.validate dupc_schema [] [("foo", dupc_native_query)] Config.default_options
        = .ok config
      ∧ config.collections.map Prod.fst = ["foo"]
      ∧ config.collections.lookup "foo"
          = some (Config.native_query_to_collection_info
              (Config.btree_collect
                (Config.merge_object_types dupc_schema [] [("foo", dupc_native_query)]))
              "foo" dupc_native_query) := by
  refine ⟨_, rfl, rfl, rfl⟩

/-- C3 (amended): `Configuration::validate` performs no duplicate-collection
check. For any input whose merged object-type names are unique and whose
function-representation native queries produce no errors, validation
succeeds — also when a collection name appears among both real collections
and collection-representation native queries — and the resulting collection
catalog is the `BTreeMap` collect of the regular entries followed by the
native-query entries, so a native-query collection overwrites a same-named
regular collection. -/
theorem C3_amended_no_duplicate_collection_check (schema : Config.Schema)
    (native_mutations : List (String × Config.NativeMutation))
    (native_queries : List (String × Config.NativeQuery))
    (options : Config.ConfigurationOptions)
    (hdup : Config.duplicates
      ((Config.merge_object_types schema native_mutations native_queries).map Prod.fst)
      = [])
    (hfn : Config.function_errors
      (Config.btree_collect
        (Config.merge_object_types schema native_mutations native_queries))
      native_queries = []) :
    ∃ config,
      Config.validate schema native_mutations native_queries options = .ok config
      ∧ config.collections = Config.btree_collect
          (Config.regular_collection_infos
            (Config.btree_collect
              (Config.merge_object_types schema native_mutations native_queries))
            schema
          ++ Config.native_query_collection_infos
            (Config.btree_collect
              (Config.merge_object_types schema native_mutations native_queries))
            native_queries) := by
  refine ⟨{ collections := Config.btree_collect
              (Config.regular_collection_infos
                (Config.btree_collect
                  (Config.merge_object_types schema native_mutations native_queries))
                schema
              ++ Config.native_query_collection_infos
                (Config.btree_collect
                  (Config.merge_object_types schema native_mutations native_queries))
                native_queries)
            functions := Config.btree_collect (Config.function_infos
              (Config.btree_collect
                (Config.merge_object_types schema native_mutations native_queries))
              native_queries)
            mutations := Config.btree_collect (native_mutations.map fun nm =>
              (nm.1, Config.native_mutation_to_mutation_info nm.1 nm.2))
            native_mutations := native_mutations
            native_queries := native_queries
            object_types := Config.btree_collect
              (Config.merge_object_types schema native_mutations native_queries)
            options := options }, ?_, rfl⟩
  unfold Config.validate
  simp [hdup, hfn]

/-- Witness for the amended C3 at the duplicate-collection input. -/
theorem C3_amended_witness :
    Config.duplicates
      ((Config.merge_object_types dupc_schema [] [("foo", dupc_native_query)]).map
        Prod.fst) = []
    ∧ Config.function_errors
        (Config.btree_collect
          (Config.merge_object_types dupc_schema [] [("foo", dupc_native_query)]))
        [("foo", dupc_native_query)] = []
    ∧ ∃ config,
        Config.validate dupc_schema [] [("foo", dupc_native_query)] Config.default_options
          = .ok config
        ∧ config.collections = Config.btree_collect
            (Config.regular_collection_infos
              (Config.btree_collect
                (Config.merge_object_types dupc_schema [] [("foo", dupc_native_query)]))
              dupc_schema
            ++ Config.native_query_collection_infos
              (Config.btree_collect
                (Config.merge_object_types dupc_schema [] [("foo", dupc_native_query)]))
              [("foo", dupc_native_query)]) :=
  ⟨by decide, by decide,
   C3_amended_no_duplicate_collection_check dupc_schema [] [("foo", dupc_native_query)]
     Config.default_options (by decide) (by decide)⟩
